import Mathlib

set_option maxRecDepth 100000

/-!
Verification of the menu-analysis client of this repository.

The repository contains two variants of the Gemini service module:
a richer variant (with a quality check, category and nutrition fields,
and a suggestion-count parameter) and a simpler variant.  Both export an
`analyzeMenu` function that builds a prompt from a user profile, sends it
with menu images to the model, and validates/classifies the model reply.

The shallow embedding below models:
  * the JavaScript string primitives the client uses (`trim`,
    `startsWith`, `toLowerCase().includes`, and `s || default`) as
    executable Lean functions on `String`,
  * the data model of `types.ts`, with `Option` fields standing for
    JSON keys that may be absent from the decoded reply,
  * the deterministic part of each `analyzeMenu`: the whole response
    validation pipeline and the outer catch-block error classification,
    as a function of the model-call outcome.  The external model call is
    the only non-deterministic step; its outcome (reply text plus the
    result of `JSON.parse` on the trimmed text, or a thrown transport
    error) is the function's input.
-/

/-- Models JavaScript `String.prototype.trim`: drop whitespace from both ends.
Implemented over the character list so that it evaluates by `decide`. -/
def jsTrim (s : String) : String :=
  String.mk (((s.data.dropWhile Char.isWhitespace).reverse.dropWhile Char.isWhitespace).reverse)

/-- Models JavaScript `String.prototype.startsWith`. -/
def jsStartsWith (s pre : String) : Bool :=
  pre.data.isPrefixOf s.data

/-- Models JavaScript `String.prototype.toLowerCase` (ASCII case folding). -/
def jsToLower (s : String) : String :=
  String.mk (s.data.map Char.toLower)

/-- Helper for `jsIncludes`: does `pat` occur as a contiguous run in the list? -/
def jsIncludesAux (pat : List Char) : List Char → Bool
  | [] => pat.isEmpty
  | c :: rest => pat.isPrefixOf (c :: rest) || jsIncludesAux pat rest

/-- Models JavaScript `String.prototype.includes`. -/
def jsIncludes (s pat : String) : Bool :=
  jsIncludesAux pat.data s.data

/-- Models the JavaScript expression `s || d` for string-typed `s`:
the empty string is the only falsy string. -/
def jsOrDefault (s d : String) : String :=
  if s = "" then d else s

/-- NutritionalInfo from `types.ts`: five string-valued fields (strings
because the model may answer "N/A" or include units inline). -/
structure NutritionalInfo where
  calories : String
  carbohydrates : String
  fats : String
  protein : String
  sodium : String
deriving DecidableEq

/-- The `qualityCheck` object of the richer variant (`types.ts`,
`GeminiAnalysisResultWithQuality`): a legibility flag plus feedback text.
Absent or empty feedback is modelled as `""` (both are falsy in the one
place the code reads it, `qualityCheck.feedback || ...`). -/
structure QualityCheck where
  isLegible : Bool
  feedback : String
deriving DecidableEq

/-- One element of the decoded `suggestions` array.  Every field is an
`Option` because the decoded JSON may lack any key; the client's own
`Suggestion` type of `types.ts` declares `dishName`, `description`,
`price`, `reasonForRecommendation` and `category` as present and
`nutritionalInfo` as optional. -/
structure SuggestionJson where
  dishName : Option String
  description : Option String
  price : Option String
  reasonForRecommendation : Option String
  category : Option String
  nutritionalInfo : Option NutritionalInfo
deriving DecidableEq

/-- GeminiAnalysisResult from `types.ts`: the caller-facing result. -/
structure GeminiAnalysisResult where
  suggestions : List SuggestionJson
deriving DecidableEq

/-- The object produced by `JSON.parse` on a reply, as far as the client
reads it: an optional `qualityCheck` object and an optional `suggestions`
array (`none` models an absent or null key). -/
structure ParsedResponse where
  qualityCheck : Option QualityCheck
  suggestions : Option (List SuggestionJson)
deriving DecidableEq

/-- UserProfile from `types.ts` (richer variant): six scalar string fields. -/
structure UserProfile where
  tastes : String
  allergies : String
  preferences : String
  mood : String
  diet : String
  budget : String
deriving DecidableEq

/-- The simpler variant's profile shape: tag lists for four fields (its
prompt joins them with `", "`), scalar strings for mood and budget. -/
structure UserProfileTags where
  tastes : List String
  allergies : List String
  preferences : List String
  mood : String
  diet : List String
  budget : String
deriving DecidableEq

/-- Outcome of `JSON.parse(jsonText)`: either it throws (carrying the
parser's own message) or it yields a decoded object. -/
inductive ParseResult where
  | parseError (message : String)
  | parsed (result : ParsedResponse)
deriving DecidableEq

/-- A JavaScript throwable as the catch block sees it: an `Error` object
carrying a message, or any non-`Error` value. -/
inductive Thrown where
  | errorObj (message : String)
  | nonError
deriving DecidableEq

/-- Outcome of the `ai.models.generateContent` call: a reply (its text
together with what `JSON.parse` does on the trimmed text) or a thrown
transport-level error. -/
inductive CallOutcome where
  | reply (text : String) (parse : ParseResult)
  | transportError (e : Thrown)
deriving DecidableEq

namespace GeminiService

/-- Message of the empty-response error (richer variant). -/
def emptyResponseMsg : String :=
  "A IA retornou uma resposta vazia. Isso pode acontecer devido a imagens de menu muito escuras, desfocadas ou ilegíveis. Por favor, tente tirar fotos de melhor qualidade."

/-- Message of the malformed-response error (richer variant). -/
def malformedResponseMsg : String :=
  "A IA retornou uma resposta em um formato inesperado. Verifique se as imagens do menu estão claras e tente novamente."

/-- Message of the incomplete-response error (richer variant). -/
def incompleteResponseMsg : String :=
  "A resposta da IA está incompleta. Não foi possível verificar a qualidade da imagem."

/-- Message of the illegible-menu error, built from the model's feedback
with the code's fallback for empty feedback. -/
def illegibleMsg (rawFeedback : String) : String :=
  let feedback := jsOrDefault rawFeedback "Qualidade de imagem insuficiente."
  "Não foi possível ler o menu. Motivo: " ++ feedback ++ ". Por favor, tente tirar uma nova foto com mais nitidez, melhor iluminação e sem reflexos."

/-- Message of the no-suggestions error (richer variant). -/
def noSuggestionsMsg : String :=
  "Nenhuma sugestão encontrada. O menu pode não conter pratos que correspondam ao seu perfil, ou a IA pode não ter conseguido ler as imagens corretamente. Tente usar fotos mais nítidas e com boa iluminação."

/-- Message of the connectivity error (richer variant). -/
def connectionErrorMsg : String :=
  "Houve um problema de conexão ao contatar a IA. Verifique sua conexão com a internet e tente novamente."

/-- Message for non-`Error` throwables (richer variant). -/
def unknownErrorMsg : String :=
  "Ocorreu um erro desconhecido ao analisar o menu."

/-- Prefix of the generic wrap applied to unrecognized `Error`s. -/
def serverErrorPrefix : String :=
  "Falha ao obter recomendações da IA. A resposta do servidor foi: "

/-- The `required` list of `suggestionSchema` in the richer variant's
declared response schema. -/
def suggestionSchemaRequired : List String :=
  ["dishName", "description", "price", "reasonForRecommendation", "category"]

/-- The `required` list of the top-level response schema in the richer
variant: only `qualityCheck`. -/
def responseSchemaRequired : List String :=
  ["qualityCheck"]

/-- The `required` list of `nutritionalInfoSchema`. -/
def nutritionalInfoSchemaRequired : List String :=
  ["calories", "carbohydrates", "fats", "protein", "sodium"]

/-- The richer variant's prompt template (`profileText`), with the six
profile interpolations `profile.field || default` and the two
`suggestionCount` interpolations, transcribed verbatim. -/
def profileText (profile : UserProfile) (suggestionCount : Nat) : String :=
  "\n    Analise as seguintes imagens do menu de um restaurante e forneça sugestões de refeições com base neste perfil de usuário:\n    - Gostos e Sabores: "
  ++ jsOrDefault profile.tastes "Não especificado"
  ++ "\n    - Alergias: "
  ++ jsOrDefault profile.allergies "Nenhuma especificada"
  ++ "\n    - Preferências Gastronômicas (ex: vegano, vegetariano): "
  ++ jsOrDefault profile.preferences "Nenhuma preferência específica"
  ++ "\n    - Humor Atual: "
  ++ jsOrDefault profile.mood "Neutro"
  ++ "\n    - Restrições Alimentares: "
  ++ jsOrDefault profile.diet "Nenhuma"
  ++ "\n    - Orçamento: "
  ++ jsOrDefault profile.budget "Flexível"
  ++ "\n\n    **Passo 1: Verificação de Qualidade da Imagem e Tentativa de OCR.**\n    Primeiro, avalie a qualidade da imagem. Tente extrair o texto mesmo que a qualidade não seja perfeita (ex: levemente desfocada, iluminação irregular).\n    - Se o texto principal (nomes dos pratos, preços) for decifrável, defina \x27qualityCheck.isLegible\x27 como verdadeiro.\n    - Se a imagem for genuinamente ilegível, defina \x27qualityCheck.isLegible\x27 como falso e forneça um feedback específico e construtivo no campo \x27qualityCheck.feedback\x27. Exemplos de bom feedback: \x27O texto está muito borrado para ser lido\x27, \x27Há muito reflexo de luz sobre o menu\x27, \x27A imagem está escura demais para distinguir as letras\x27.\n\n    **Passo 2: Análise e Recomendação (somente se o OCR for bem-sucedido).**\n    Se \x27qualityCheck.isLegible\x27 for verdadeiro:\n    1. Com base no texto extraído pelo OCR, analise os pratos, descrições e preços.\n    2. Cruze as informações dos itens do menu com o perfil do usuário.\n    3. "
  ++ "Forneça exatamente "
  ++ toString suggestionCount
  ++ " recomendações personalizadas no campo \x27suggestions\x27. Se não encontrar tantas opções boas, pode fornecer menos, mas não mais que "
  ++ toString suggestionCount
  ++ "."
  ++ "\n    4. Para cada recomendação, explique *por que* ela é uma boa escolha e identifique sua categoria (ex: \x27Entrada\x27, \x27Prato Principal\x27, \x27Sobremesa\x27, \x27Bebida\x27).\n    \n    **Passo 3: Estimativa Nutricional para uma porção de 100g.**\n    Para cada prato recomendado, você deve fornecer uma estimativa nutricional.\n    1. Identifique os ingredientes principais do prato com base em seu nome e descrição.\n    2. Para cada ingrediente, pesquise os valores nutricionais usando **exclusivamente** as seguintes fontes brasileiras:\n       - Tabela Brasileira de Composição de Alimentos (TBCA): tbca.net.br\n       - Tabela TACO Online: tabelatacoonline.com.br\n       - Nutritotal: nutritotal.com.br\n    3. **Importante:** Se um ingrediente não for encontrado em nenhuma dessas três fontes, ignore-o e continue com os próximos. Não use outras fontes.\n    4. Com base nos ingredientes encontrados, calcule a soma total dos valores nutricionais para uma **porção padrão de 100g** do prato.\n    5. Preencha o objeto \x27nutritionalInfo\x27 com os dados para 100g do prato: Calorias, Carboidratos, Gorduras, Proteína e Sódio.\n    6. O campo \x27nutritionalInfo\x27 é obrigatório. Faça a melhor estimativa possível com os dados disponíveis nas fontes permitidas.\n\n    Se \x27qualityCheck.isLegible\x27 for falso, deixe o campo \x27suggestions\x27 vazio ou nulo.\n  "

/-- Lines 144-172 of the richer variant: the ordered response validation
pipeline, from `response.text.trim()` through the final return. -/
def validateResponse (text : String) (parse : ParseResult) : Except String GeminiAnalysisResult :=
  let jsonText := jsTrim text
  if jsonText = "" then
    Except.error emptyResponseMsg
  else
    match parse with
    | ParseResult.parseError _ => Except.error malformedResponseMsg
    | ParseResult.parsed result =>
      match result.qualityCheck with
      | none => Except.error incompleteResponseMsg
      | some qc =>
        if qc.isLegible = false then
          Except.error (illegibleMsg qc.feedback)
        else
          match result.suggestions with
          | none => Except.error noSuggestionsMsg
          | some suggestions =>
            if suggestions.length = 0 then
              Except.error noSuggestionsMsg
            else
              Except.ok ⟨suggestions⟩

/-- Lines 173-190 of the richer variant: the catch block's error
classification.  Prefix-sniffed custom errors are re-thrown as is,
connection-looking messages become the connectivity error, any other
`Error` is wrapped with the server-error prefix, and a non-`Error`
throwable becomes the unknown-error message. -/
def handleCatch (e : Thrown) : String :=
  match e with
  | Thrown.errorObj message =>
    if jsStartsWith message "A IA" || jsStartsWith message "Nenhuma sugestão" || jsStartsWith message "Não foi possível ler" then
      message
    else if jsIncludes (jsToLower message) "network" || jsIncludes (jsToLower message) "fetch" then
      connectionErrorMsg
    else
      serverErrorPrefix ++ message
  | Thrown.nonError => unknownErrorMsg

/-- The richer variant's `analyzeMenu` as a function of the model-call
outcome: a transport error goes straight to the catch block; a reply is
validated, and any error the validation throws is caught and classified
by the same catch block. -/
def analyzeMenu (outcome : CallOutcome) : Except String GeminiAnalysisResult :=
  match outcome with
  | CallOutcome.transportError e => Except.error (handleCatch e)
  | CallOutcome.reply text parse =>
    match validateResponse text parse with
    | Except.ok r => Except.ok r
    | Except.error msg => Except.error (handleCatch (Thrown.errorObj msg))

end GeminiService

namespace GeminiServiceSimple

/-- Message of the simpler variant's internally thrown no-suggestions error. -/
def noSuggestionsMsg : String :=
  "O modelo não retornou nenhuma sugestão. O menu pode estar ilegível ou não ter opções adequadas."

/-- Prefix the simpler variant's catch block puts on every `Error`. -/
def failurePrefix : String :=
  "Falha ao obter recomendações da IA: "

/-- Message for non-`Error` throwables (simpler variant). -/
def unknownErrorMsg : String :=
  "Ocorreu um erro desconhecido ao analisar o menu."

/-- The `required` list of the simpler variant's `suggestionSchema`. -/
def suggestionSchemaRequired : List String :=
  ["dishName", "description", "price", "reasonForRecommendation"]

/-- The simpler variant's prompt template (`profileText`): four tag-list
fields joined with `", "` before the `|| default`, fixed 3-to-5
recommendation request, transcribed verbatim. -/
def profileText (profile : UserProfileTags) : String :=
  "\n    Analise as seguintes imagens do menu de um restaurante e forneça sugestões de refeições com base neste perfil de usuário:\n    - Gostos e Sabores: "
  ++ jsOrDefault (String.intercalate ", " profile.tastes) "Não especificado"
  ++ "\n    - Alergias: "
  ++ jsOrDefault (String.intercalate ", " profile.allergies) "Nenhuma especificada"
  ++ "\n    - Preferências Gastronômicas (ex: vegano, vegetariano): "
  ++ jsOrDefault (String.intercalate ", " profile.preferences) "Nenhuma preferência específica"
  ++ "\n    - Humor Atual: "
  ++ jsOrDefault profile.mood "Neutro"
  ++ "\n    - Restrições Alimentares: "
  ++ jsOrDefault (String.intercalate ", " profile.diet) "Nenhuma"
  ++ "\n    - Orçamento: "
  ++ jsOrDefault profile.budget "Flexível"
  ++ "\n\n    Primeiro, execute o OCR em todas as páginas do menu para entender os pratos, descrições e preços disponíveis.\n    Em seguida, cruze as informações dos itens do menu com o perfil do usuário.\n    "
  ++ "Forneça de 3 a 5 recomendações personalizadas."
  ++ " Para cada recomendação, explique *por que* ela é uma boa escolha.\n  "

/-- The simpler variant's catch block: every `Error` is wrapped with the
failure prefix; a non-`Error` throwable becomes the unknown-error message. -/
def handleCatch (e : Thrown) : String :=
  match e with
  | Thrown.errorObj message => failurePrefix ++ message
  | Thrown.nonError => unknownErrorMsg

/-- The simpler variant's `analyzeMenu` as a function of the model-call
outcome.  There is no empty-text guard and no parse try/catch: a
`JSON.parse` failure propagates its own message to the outer catch; an
absent or empty `suggestions` array raises the internal no-suggestions
error, which the same catch block then wraps. -/
def analyzeMenu (outcome : CallOutcome) : Except String GeminiAnalysisResult :=
  match outcome with
  | CallOutcome.transportError e => Except.error (handleCatch e)
  | CallOutcome.reply _ parse =>
    match parse with
    | ParseResult.parseError perr => Except.error (handleCatch (Thrown.errorObj perr))
    | ParseResult.parsed result =>
      match result.suggestions with
      | none => Except.error (handleCatch (Thrown.errorObj noSuggestionsMsg))
      | some suggestions =>
        if suggestions.length = 0 then
          Except.error (handleCatch (Thrown.errorObj noSuggestionsMsg))
        else
          Except.ok ⟨suggestions⟩

end GeminiServiceSimple

/-- Concrete suggestion object lacking the schema-required `dishName`
key (all other required keys present), as decoded from a model reply. -/
def missingDishNameSuggestion : SuggestionJson :=
  ⟨none, some "Arroz com feijão", some "R$ 25", some "Combina com o seu perfil", some "Prato Principal", none⟩

/-- Folding `jsOrDefault` at an empty first argument yields the default. -/
theorem jsOrDefault_empty (d : String) : jsOrDefault "" d = d := rfl

/-- Appending on the right preserves `jsStartsWith`. -/
theorem jsStartsWith_append (a b pre : String) (h : jsStartsWith a pre = true) :
    jsStartsWith (a ++ b) pre = true := by
  unfold jsStartsWith at *
  rw [List.isPrefixOf_iff_prefix] at *
  rw [String.data_append]
  exact h.trans (List.prefix_append _ _)

/-- The illegible-menu message always passes the catch block's prefix
sniff (it starts with "Não foi possível ler" for every feedback), so the
catch block re-throws it unchanged. -/
theorem handleCatch_keeps_illegibleMsg (fb : String) :
    GeminiService.handleCatch (Thrown.errorObj (GeminiService.illegibleMsg fb)) =
      GeminiService.illegibleMsg fb := by
  have h1 : jsStartsWith (GeminiService.illegibleMsg fb) "Não foi possível ler" = true := by
    simp only [GeminiService.illegibleMsg]
    exact jsStartsWith_append _ _ _ (jsStartsWith_append _ _ _ rfl)
  simp [GeminiService.handleCatch, h1]

/-- C1: in the richer variant the response validation is ordered with
first failure wins — trimmed-empty text yields the empty-response error
before the parse outcome is even consulted; then a parse failure yields
the malformed-response error; then a missing `qualityCheck` yields the
incomplete-response error; then `isLegible = false` yields the illegible
error; then an absent or empty `suggestions` array yields the no-matches
error; otherwise the suggestions are returned.  An empty-string body
takes the empty-response branch, whose message differs from the
malformed-response message. -/
theorem validateResponse_ordered_pipeline :
    (∀ (text : String) (parse : ParseResult), jsTrim text = "" →
      GeminiService.validateResponse text parse = Except.error GeminiService.emptyResponseMsg) ∧
    (∀ (text perr : String), jsTrim text ≠ "" →
      GeminiService.validateResponse text (ParseResult.parseError perr) =
        Except.error GeminiService.malformedResponseMsg) ∧
    (∀ (text : String) (sugg : Option (List SuggestionJson)), jsTrim text ≠ "" →
      GeminiService.validateResponse text (ParseResult.parsed ⟨none, sugg⟩) =
        Except.error GeminiService.incompleteResponseMsg) ∧
    (∀ (text fb : String) (sugg : Option (List SuggestionJson)), jsTrim text ≠ "" →
      GeminiService.validateResponse text (ParseResult.parsed ⟨some ⟨false, fb⟩, sugg⟩) =
        Except.error (GeminiService.illegibleMsg fb)) ∧
    (∀ (text fb : String), jsTrim text ≠ "" →
      GeminiService.validateResponse text (ParseResult.parsed ⟨some ⟨true, fb⟩, none⟩) =
        Except.error GeminiService.noSuggestionsMsg ∧
      GeminiService.validateResponse text (ParseResult.parsed ⟨some ⟨true, fb⟩, some []⟩) =
        Except.error GeminiService.noSuggestionsMsg) ∧
    (∀ (text fb : String) (l : List SuggestionJson), jsTrim text ≠ "" → l ≠ [] →
      GeminiService.validateResponse text (ParseResult.parsed ⟨some ⟨true, fb⟩, some l⟩) =
        Except.ok ⟨l⟩) ∧
    (∀ parse : ParseResult,
      GeminiService.validateResponse "" parse = Except.error GeminiService.emptyResponseMsg) ∧
    GeminiService.emptyResponseMsg ≠ GeminiService.malformedResponseMsg := by
  refine ⟨?_, ?_, ?_, ?_, ?_, ?_, ?_, ?_⟩
  · intro text parse h
    simp [GeminiService.validateResponse, h]
  · intro text perr h
    simp [GeminiService.validateResponse, h]
  · intro text sugg h
    simp [GeminiService.validateResponse, h]
  · intro text fb sugg h
    simp [GeminiService.validateResponse, h]
  · intro text fb h
    exact ⟨by simp [GeminiService.validateResponse, h], by simp [GeminiService.validateResponse, h]⟩
  · intro text fb l h hl
    simp [GeminiService.validateResponse, h, List.length_eq_zero, hl]
  · intro parse
    have h : jsTrim "" = "" := rfl
    simp [GeminiService.validateResponse, h]
  · decide

/-- Witness for C1: the pipeline evaluated at concrete inputs for the
empty, malformed and success branches. -/
theorem validateResponse_ordered_pipeline_witness :
    GeminiService.validateResponse "" (ParseResult.parseError "boom") =
      Except.error GeminiService.emptyResponseMsg ∧
    GeminiService.validateResponse " \x7bnot json " (ParseResult.parseError "Unexpected token") =
      Except.error GeminiService.malformedResponseMsg ∧
    GeminiService.validateResponse "x"
        (ParseResult.parsed ⟨some ⟨true, ""⟩, some [⟨some "Feijoada", some "Prato típico", some "R$ 40", some "Rico em proteína", some "Prato Principal", none⟩]⟩) =
      Except.ok ⟨[⟨some "Feijoada", some "Prato típico", some "R$ 40", some "Rico em proteína", some "Prato Principal", none⟩]⟩ :=
  ⟨validateResponse_ordered_pipeline.1 "" (ParseResult.parseError "boom") rfl,
   validateResponse_ordered_pipeline.2.1 " \x7bnot json " "Unexpected token" (by decide),
   validateResponse_ordered_pipeline.2.2.2.2.2.1 "x" ""
     [⟨some "Feijoada", some "Prato típico", some "R$ 40", some "Rico em proteína", some "Prato Principal", none⟩]
     (by decide) (by decide)⟩

/-- C2 (code bug): the catch block's prefix sniff misses the
incomplete-response message — `"A resposta da IA está incompleta..."`
starts with none of the three checked prefixes — so, contrary to the
code's own comment ("Re-throw our custom, user-friendly errors
directly"), `analyzeMenu` surfaces that domain error wrapped in the
generic server-error prefix.  The other four domain messages do pass the
sniff and are re-thrown unchanged. -/
theorem analyzeMenu_wraps_incomplete_error :
    GeminiService.analyzeMenu (CallOutcome.reply "\x7b\x7d" (ParseResult.parsed ⟨none, none⟩)) =
      Except.error (GeminiService.serverErrorPrefix ++ GeminiService.incompleteResponseMsg) ∧
    GeminiService.handleCatch (Thrown.errorObj GeminiService.incompleteResponseMsg) ≠
      GeminiService.incompleteResponseMsg ∧
    GeminiService.handleCatch (Thrown.errorObj GeminiService.emptyResponseMsg) =
      GeminiService.emptyResponseMsg ∧
    GeminiService.handleCatch (Thrown.errorObj GeminiService.malformedResponseMsg) =
      GeminiService.malformedResponseMsg ∧
    GeminiService.handleCatch (Thrown.errorObj GeminiService.noSuggestionsMsg) =
      GeminiService.noSuggestionsMsg ∧
    GeminiService.handleCatch (Thrown.errorObj (GeminiService.illegibleMsg "A imagem está escura demais")) =
      GeminiService.illegibleMsg "A imagem está escura demais" :=
  ⟨rfl, by decide, rfl, rfl, rfl, rfl⟩

/-- C3: a parsed response with `isLegible = false` always produces the
illegible error — whatever the `suggestions` field holds — and the error
message embeds the model's feedback verbatim when it is non-empty, or
the generic fallback phrase when it is empty. -/
theorem analyzeMenu_illegible_error (text fb : String) (sugg : Option (List SuggestionJson))
    (h : jsTrim text ≠ "") :
    GeminiService.analyzeMenu (CallOutcome.reply text (ParseResult.parsed ⟨some ⟨false, fb⟩, sugg⟩)) =
      Except.error (GeminiService.illegibleMsg fb) ∧
    (fb ≠ "" → ∃ pre post, GeminiService.illegibleMsg fb = pre ++ fb ++ post) ∧
    (fb = "" → ∃ pre post,
      GeminiService.illegibleMsg fb = pre ++ "Qualidade de imagem insuficiente." ++ post) := by
  refine ⟨?_, ?_, ?_⟩
  · have hv : GeminiService.validateResponse text (ParseResult.parsed ⟨some ⟨false, fb⟩, sugg⟩) =
        Except.error (GeminiService.illegibleMsg fb) := by
      simp [GeminiService.validateResponse, h]
    simp [GeminiService.analyzeMenu, hv, handleCatch_keeps_illegibleMsg]
  · intro hfb
    exact ⟨"Não foi possível ler o menu. Motivo: ",
      ". Por favor, tente tirar uma nova foto com mais nitidez, melhor iluminação e sem reflexos.",
      by simp [GeminiService.illegibleMsg, jsOrDefault, hfb]⟩
  · intro hfb
    subst hfb
    exact ⟨"Não foi possível ler o menu. Motivo: ",
      ". Por favor, tente tirar uma nova foto com mais nitidez, melhor iluminação e sem reflexos.", rfl⟩

/-- Witness for C3: the scenario of the spec — dark photo, feedback
"A imagem está escura demais" — with a non-empty suggestions array. -/
theorem analyzeMenu_illegible_error_witness :
    GeminiService.analyzeMenu (CallOutcome.reply "resp"
        (ParseResult.parsed ⟨some ⟨false, "A imagem está escura demais"⟩,
          some [⟨some "X", some "d", some "p", some "r", some "c", none⟩]⟩)) =
      Except.error (GeminiService.illegibleMsg "A imagem está escura demais") ∧
    ("A imagem está escura demais" ≠ "" → ∃ pre post,
      GeminiService.illegibleMsg "A imagem está escura demais" =
        pre ++ "A imagem está escura demais" ++ post) ∧
    ("A imagem está escura demais" = "" → ∃ pre post,
      GeminiService.illegibleMsg "A imagem está escura demais" =
        pre ++ "Qualidade de imagem insuficiente." ++ post) :=
  analyzeMenu_illegible_error "resp" "A imagem está escura demais"
    (some [⟨some "X", some "d", some "p", some "r", some "c", none⟩]) (by decide)

/-- C4: for a well-formed legible response carrying N ≥ 1 suggestions,
`analyzeMenu` returns exactly that list — same elements, same order,
every field (nutrition sub-fields and "N/A" values included) passed
through unchanged. -/
theorem analyzeMenu_roundtrip (text fb : String) (l : List SuggestionJson) (N : Nat)
    (h : jsTrim text ≠ "") (hN : l.length = N) (hpos : 1 ≤ N)
    (hwf : ∀ s ∈ l, s.dishName.isSome ∧ s.description.isSome ∧ s.price.isSome ∧
      s.reasonForRecommendation.isSome ∧ s.category.isSome) :
    GeminiService.analyzeMenu (CallOutcome.reply text (ParseResult.parsed ⟨some ⟨true, fb⟩, some l⟩)) =
      Except.ok ⟨l⟩ := by
  have hl : l.length ≠ 0 := by omega
  have hv : GeminiService.validateResponse text (ParseResult.parsed ⟨some ⟨true, fb⟩, some l⟩) =
      Except.ok ⟨l⟩ := by
    simp [GeminiService.validateResponse, h, hl]
  simp [GeminiService.analyzeMenu, hv]

/-- Witness for C4: two complete suggestions, one with literal "N/A"
nutrition values, are returned verbatim. -/
theorem analyzeMenu_roundtrip_witness :
    GeminiService.analyzeMenu (CallOutcome.reply "ok" (ParseResult.parsed ⟨some ⟨true, ""⟩, some
      [⟨some "Moqueca", some "Peixe com dendê", some "R$ 75,00", some "Combina com frutos do mar", some "Prato Principal", some ⟨"450 kcal", "30g", "20g", "25g", "N/A"⟩⟩,
       ⟨some "Caipirinha", some "Bebida típica", some "R$ 18", some "Para o seu humor", some "Bebida", some ⟨"N/A", "N/A", "N/A", "N/A", "N/A"⟩⟩]⟩)) =
      Except.ok ⟨[⟨some "Moqueca", some "Peixe com dendê", some "R$ 75,00", some "Combina com frutos do mar", some "Prato Principal", some ⟨"450 kcal", "30g", "20g", "25g", "N/A"⟩⟩,
       ⟨some "Caipirinha", some "Bebida típica", some "R$ 18", some "Para o seu humor", some "Bebida", some ⟨"N/A", "N/A", "N/A", "N/A", "N/A"⟩⟩]⟩ :=
  analyzeMenu_roundtrip "ok" ""
    [⟨some "Moqueca", some "Peixe com dendê", some "R$ 75,00", some "Combina com frutos do mar", some "Prato Principal", some ⟨"450 kcal", "30g", "20g", "25g", "N/A"⟩⟩,
     ⟨some "Caipirinha", some "Bebida típica", some "R$ 18", some "Para o seu humor", some "Bebida", some ⟨"N/A", "N/A", "N/A", "N/A", "N/A"⟩⟩]
    2 (by decide) rfl (by decide) (by decide)

/-- C5: a parsed response lacking the `qualityCheck` key always takes
the incomplete-response branch — the guard runs before any access to
fields of the missing object, so the total function yields a classified
error, never a crash. -/
theorem validateResponse_missing_qualityCheck (text : String) (sugg : Option (List SuggestionJson))
    (h : jsTrim text ≠ "") :
    GeminiService.validateResponse text (ParseResult.parsed ⟨none, sugg⟩) =
      Except.error GeminiService.incompleteResponseMsg ∧
    ∃ m, GeminiService.analyzeMenu (CallOutcome.reply text (ParseResult.parsed ⟨none, sugg⟩)) =
      Except.error m := by
  have hv : GeminiService.validateResponse text (ParseResult.parsed ⟨none, sugg⟩) =
      Except.error GeminiService.incompleteResponseMsg := by
    simp [GeminiService.validateResponse, h]
  exact ⟨hv, GeminiService.handleCatch (Thrown.errorObj GeminiService.incompleteResponseMsg),
    by simp [GeminiService.analyzeMenu, hv]⟩

/-- Witness for C5 at a concrete reply whose object has no qualityCheck. -/
theorem validateResponse_missing_qualityCheck_witness :
    GeminiService.validateResponse "\x7b \x7d" (ParseResult.parsed ⟨none, some []⟩) =
      Except.error GeminiService.incompleteResponseMsg ∧
    ∃ m, GeminiService.analyzeMenu (CallOutcome.reply "\x7b \x7d" (ParseResult.parsed ⟨none, some []⟩)) =
      Except.error m :=
  validateResponse_missing_qualityCheck "\x7b \x7d" (some []) (by decide)

/-- C6: every syntactically invalid, non-empty-after-trim payload yields
the malformed-response error, whose message is one fixed constant: the
end-to-end result does not depend on the payload text or on the parser's
own message, so the invalid text is never surfaced to the user. -/
theorem analyzeMenu_malformed_constant (text perr : String) (h : jsTrim text ≠ "") :
    GeminiService.validateResponse text (ParseResult.parseError perr) =
      Except.error GeminiService.malformedResponseMsg ∧
    GeminiService.analyzeMenu (CallOutcome.reply text (ParseResult.parseError perr)) =
      Except.error GeminiService.malformedResponseMsg ∧
    (∀ text2 perr2 : String, jsTrim text2 ≠ "" →
      GeminiService.analyzeMenu (CallOutcome.reply text (ParseResult.parseError perr)) =
        GeminiService.analyzeMenu (CallOutcome.reply text2 (ParseResult.parseError perr2))) := by
  have hc : GeminiService.handleCatch (Thrown.errorObj GeminiService.malformedResponseMsg) =
      GeminiService.malformedResponseMsg := rfl
  have hv : GeminiService.validateResponse text (ParseResult.parseError perr) =
      Except.error GeminiService.malformedResponseMsg := by
    simp [GeminiService.validateResponse, h]
  refine ⟨hv, by simp [GeminiService.analyzeMenu, hv, hc], ?_⟩
  intro text2 perr2 h2
  have hv2 : GeminiService.validateResponse text2 (ParseResult.parseError perr2) =
      Except.error GeminiService.malformedResponseMsg := by
    simp [GeminiService.validateResponse, h2]
  simp [GeminiService.analyzeMenu, hv, hv2]

/-- Witness for C6 at a concrete invalid payload. -/
theorem analyzeMenu_malformed_constant_witness :
    GeminiService.validateResponse "not json at all" (ParseResult.parseError "Unexpected token o") =
      Except.error GeminiService.malformedResponseMsg ∧
    GeminiService.analyzeMenu (CallOutcome.reply "not json at all" (ParseResult.parseError "Unexpected token o")) =
      Except.error GeminiService.malformedResponseMsg ∧
    (∀ text2 perr2 : String, jsTrim text2 ≠ "" →
      GeminiService.analyzeMenu (CallOutcome.reply "not json at all" (ParseResult.parseError "Unexpected token o")) =
        GeminiService.analyzeMenu (CallOutcome.reply text2 (ParseResult.parseError perr2))) :=
  analyzeMenu_malformed_constant "not json at all" "Unexpected token o" (by decide)

/-- C8 counterexample: a legible reply whose single suggestion lacks the
schema-required `dishName` key is returned verbatim by `analyzeMenu` —
no classified error is raised, although `dishName` is in the declared
schema's required list.  The client validates only `qualityCheck`. -/
theorem analyzeMenu_returns_suggestion_missing_dishName :
    GeminiService.analyzeMenu (CallOutcome.reply
        "\x7b\"qualityCheck\":\x7b\"isLegible\":true,\"feedback\":\"\"\x7d,\"suggestions\":[\x7b\"description\":\"Arroz com feijão\",\"price\":\"R$ 25\",\"reasonForRecommendation\":\"Combina com o seu perfil\",\"category\":\"Prato Principal\"\x7d]\x7d"
        (ParseResult.parsed ⟨some ⟨true, ""⟩, some [missingDishNameSuggestion]⟩)) =
      Except.ok ⟨[missingDishNameSuggestion]⟩ ∧
    missingDishNameSuggestion.dishName = none ∧
    "dishName" ∈ GeminiService.suggestionSchemaRequired :=
  ⟨rfl, rfl, by decide⟩

/-- C8 (amended): the required suggestion fields are declared in the
request's response schema, but the client performs no field validation
of its own — every legible reply with a non-empty suggestions array is
returned verbatim, whether or not its elements carry the required keys. -/
theorem analyzeMenu_no_clientside_field_validation (text fb : String) (l : List SuggestionJson)
    (h : jsTrim text ≠ "") (hl : l ≠ []) :
    GeminiService.analyzeMenu (CallOutcome.reply text (ParseResult.parsed ⟨some ⟨true, fb⟩, some l⟩)) =
      Except.ok ⟨l⟩ ∧
    GeminiService.suggestionSchemaRequired =
      ["dishName", "description", "price", "reasonForRecommendation", "category"] := by
  have hv : GeminiService.validateResponse text (ParseResult.parsed ⟨some ⟨true, fb⟩, some l⟩) =
      Except.ok ⟨l⟩ := by
    simp [GeminiService.validateResponse, h, List.length_eq_zero, hl]
  exact ⟨by simp [GeminiService.analyzeMenu, hv], rfl⟩

/-- Witness for the amended C8: the suggestion missing `dishName` flows
through unchanged. -/
theorem analyzeMenu_no_clientside_field_validation_witness :
    GeminiService.analyzeMenu (CallOutcome.reply "resposta"
        (ParseResult.parsed ⟨some ⟨true, ""⟩, some [missingDishNameSuggestion]⟩)) =
      Except.ok ⟨[missingDishNameSuggestion]⟩ ∧
    GeminiService.suggestionSchemaRequired =
      ["dishName", "description", "price", "reasonForRecommendation", "category"] :=
  analyzeMenu_no_clientside_field_validation "resposta" "" [missingDishNameSuggestion]
    (by decide) (by decide)

/-- C10: in the simpler variant every failure is wrapped — any error
result is either the fixed unknown-error message (non-`Error`
throwables) or the failure prefix followed by the underlying message;
the internally thrown no-suggestions error is itself wrapped, and no
`Error`'s original message ever escapes unchanged. -/
theorem analyzeMenuSimple_wraps_every_error :
    (∀ (oc : CallOutcome) (m : String), GeminiServiceSimple.analyzeMenu oc = Except.error m →
      (∃ u, m = GeminiServiceSimple.failurePrefix ++ u) ∨ m = GeminiServiceSimple.unknownErrorMsg) ∧
    (∀ (text : String) (qc : Option QualityCheck),
      GeminiServiceSimple.analyzeMenu (CallOutcome.reply text (ParseResult.parsed ⟨qc, some []⟩)) =
        Except.error (GeminiServiceSimple.failurePrefix ++ GeminiServiceSimple.noSuggestionsMsg)) ∧
    (∀ u, GeminiServiceSimple.analyzeMenu (CallOutcome.transportError (Thrown.errorObj u)) =
      Except.error (GeminiServiceSimple.failurePrefix ++ u)) ∧
    GeminiServiceSimple.analyzeMenu (CallOutcome.transportError Thrown.nonError) =
      Except.error GeminiServiceSimple.unknownErrorMsg ∧
    (∀ u, GeminiServiceSimple.analyzeMenu (CallOutcome.transportError (Thrown.errorObj u)) ≠
      Except.error u) := by
  refine ⟨?_, ?_, ?_, rfl, ?_⟩
  · intro oc m hm
    cases oc with
    | transportError e =>
      cases e with
      | errorObj u =>
        left
        exact ⟨u, by simpa [GeminiServiceSimple.analyzeMenu, GeminiServiceSimple.handleCatch] using hm.symm⟩
      | nonError =>
        right
        simpa [GeminiServiceSimple.analyzeMenu, GeminiServiceSimple.handleCatch] using hm.symm
    | reply text parse =>
      cases parse with
      | parseError perr =>
        left
        exact ⟨perr, by simpa [GeminiServiceSimple.analyzeMenu, GeminiServiceSimple.handleCatch] using hm.symm⟩
      | parsed result =>
        obtain ⟨qc, sugg⟩ := result
        cases sugg with
        | none =>
          left
          exact ⟨GeminiServiceSimple.noSuggestionsMsg,
            by simpa [GeminiServiceSimple.analyzeMenu, GeminiServiceSimple.handleCatch] using hm.symm⟩
        | some l =>
          by_cases hl : l.length = 0
          · left
            exact ⟨GeminiServiceSimple.noSuggestionsMsg,
              by simpa [GeminiServiceSimple.analyzeMenu, GeminiServiceSimple.handleCatch, hl] using hm.symm⟩
          · exfalso
            simp [GeminiServiceSimple.analyzeMenu, hl] at hm
  · intro text qc
    simp [GeminiServiceSimple.analyzeMenu, GeminiServiceSimple.handleCatch]
  · intro u
    simp [GeminiServiceSimple.analyzeMenu, GeminiServiceSimple.handleCatch]
  · intro u hu
    have h2 : GeminiServiceSimple.failurePrefix ++ u = u := by
      simpa [GeminiServiceSimple.analyzeMenu, GeminiServiceSimple.handleCatch] using hu
    have h3 := congrArg String.length h2
    rw [String.length_append] at h3
    have h4 : 0 < GeminiServiceSimple.failurePrefix.length := by decide
    omega

/-- Witness for C10: a non-`Error` throwable gives the fixed unknown
message, and a concrete `Error` is not surfaced unchanged. -/
theorem analyzeMenuSimple_wraps_every_error_witness :
    ((∃ u, GeminiServiceSimple.unknownErrorMsg = GeminiServiceSimple.failurePrefix ++ u) ∨
      GeminiServiceSimple.unknownErrorMsg = GeminiServiceSimple.unknownErrorMsg) ∧
    GeminiServiceSimple.analyzeMenu (CallOutcome.transportError (Thrown.errorObj "API quota exceeded")) ≠
      Except.error "API quota exceeded" :=
  ⟨analyzeMenuSimple_wraps_every_error.1 (CallOutcome.transportError Thrown.nonError)
      GeminiServiceSimple.unknownErrorMsg rfl,
   analyzeMenuSimple_wraps_every_error.2.2.2.2 "API quota exceeded"⟩

/-- Intercalating the empty list yields the empty string (the simpler
variant's `join` of an empty tag list). -/
theorem intercalate_nil (sep : String) : String.intercalate sep [] = "" := rfl

/-- C7: prompt construction is total in both variants, and for a profile
whose six fields are all empty the built instruction substitutes the
documented neutral default for each field: tastes → "Não especificado",
allergies → "Nenhuma especificada", preferences → "Nenhuma preferência
específica", mood → "Neutro", diet → "Nenhuma", budget → "Flexível". -/
theorem profileText_empty_profile_defaults :
    (∀ (p : UserProfile) (n : Nat), p.tastes = "" → p.allergies = "" → p.preferences = "" →
      p.mood = "" → p.diet = "" → p.budget = "" →
      GeminiService.profileText p n =
        "\n    Analise as seguintes imagens do menu de um restaurante e forneça sugestões de refeições com base neste perfil de usuário:\n    - Gostos e Sabores: "
        ++ "Não especificado"
        ++ "\n    - Alergias: "
        ++ "Nenhuma especificada"
        ++ "\n    - Preferências Gastronômicas (ex: vegano, vegetariano): "
        ++ "Nenhuma preferência específica"
        ++ "\n    - Humor Atual: "
        ++ "Neutro"
        ++ "\n    - Restrições Alimentares: "
        ++ "Nenhuma"
        ++ "\n    - Orçamento: "
        ++ "Flexível"
        ++ "\n\n    **Passo 1: Verificação de Qualidade da Imagem e Tentativa de OCR.**\n    Primeiro, avalie a qualidade da imagem. Tente extrair o texto mesmo que a qualidade não seja perfeita (ex: levemente desfocada, iluminação irregular).\n    - Se o texto principal (nomes dos pratos, preços) for decifrável, defina \x27qualityCheck.isLegible\x27 como verdadeiro.\n    - Se a imagem for genuinamente ilegível, defina \x27qualityCheck.isLegible\x27 como falso e forneça um feedback específico e construtivo no campo \x27qualityCheck.feedback\x27. Exemplos de bom feedback: \x27O texto está muito borrado para ser lido\x27, \x27Há muito reflexo de luz sobre o menu\x27, \x27A imagem está escura demais para distinguir as letras\x27.\n\n    **Passo 2: Análise e Recomendação (somente se o OCR for bem-sucedido).**\n    Se \x27qualityCheck.isLegible\x27 for verdadeiro:\n    1. Com base no texto extraído pelo OCR, analise os pratos, descrições e preços.\n    2. Cruze as informações dos itens do menu com o perfil do usuário.\n    3. "
        ++ "Forneça exatamente "
        ++ toString n
        ++ " recomendações personalizadas no campo \x27suggestions\x27. Se não encontrar tantas opções boas, pode fornecer menos, mas não mais que "
        ++ toString n
        ++ "."
        ++ "\n    4. Para cada recomendação, explique *por que* ela é uma boa escolha e identifique sua categoria (ex: \x27Entrada\x27, \x27Prato Principal\x27, \x27Sobremesa\x27, \x27Bebida\x27).\n    \n    **Passo 3: Estimativa Nutricional para uma porção de 100g.**\n    Para cada prato recomendado, você deve fornecer uma estimativa nutricional.\n    1. Identifique os ingredientes principais do prato com base em seu nome e descrição.\n    2. Para cada ingrediente, pesquise os valores nutricionais usando **exclusivamente** as seguintes fontes brasileiras:\n       - Tabela Brasileira de Composição de Alimentos (TBCA): tbca.net.br\n       - Tabela TACO Online: tabelatacoonline.com.br\n       - Nutritotal: nutritotal.com.br\n    3. **Importante:** Se um ingrediente não for encontrado em nenhuma dessas três fontes, ignore-o e continue com os próximos. Não use outras fontes.\n    4. Com base nos ingredientes encontrados, calcule a soma total dos valores nutricionais para uma **porção padrão de 100g** do prato.\n    5. Preencha o objeto \x27nutritionalInfo\x27 com os dados para 100g do prato: Calorias, Carboidratos, Gorduras, Proteína e Sódio.\n    6. O campo \x27nutritionalInfo\x27 é obrigatório. Faça a melhor estimativa possível com os dados disponíveis nas fontes permitidas.\n\n    Se \x27qualityCheck.isLegible\x27 for falso, deixe o campo \x27suggestions\x27 vazio ou nulo.\n  ") ∧
    (∀ q : UserProfileTags, q.tastes = [] → q.allergies = [] → q.preferences = [] →
      q.mood = "" → q.diet = [] → q.budget = "" →
      GeminiServiceSimple.profileText q =
        "\n    Analise as seguintes imagens do menu de um restaurante e forneça sugestões de refeições com base neste perfil de usuário:\n    - Gostos e Sabores: "
        ++ "Não especificado"
        ++ "\n    - Alergias: "
        ++ "Nenhuma especificada"
        ++ "\n    - Preferências Gastronômicas (ex: vegano, vegetariano): "
        ++ "Nenhuma preferência específica"
        ++ "\n    - Humor Atual: "
        ++ "Neutro"
        ++ "\n    - Restrições Alimentares: "
        ++ "Nenhuma"
        ++ "\n    - Orçamento: "
        ++ "Flexível"
        ++ "\n\n    Primeiro, execute o OCR em todas as páginas do menu para entender os pratos, descrições e preços disponíveis.\n    Em seguida, cruze as informações dos itens do menu com o perfil do usuário.\n    "
        ++ "Forneça de 3 a 5 recomendações personalizadas."
        ++ " Para cada recomendação, explique *por que* ela é uma boa escolha.\n  ") := by
  constructor
  · intro p n h1 h2 h3 h4 h5 h6
    simp only [GeminiService.profileText, h1, h2, h3, h4, h5, h6, jsOrDefault_empty]
  · intro q h1 h2 h3 h4 h5 h6
    simp only [GeminiServiceSimple.profileText, h1, h2, h3, h4, h5, h6, intercalate_nil,
      jsOrDefault_empty]

/-- Witness for C7 at the concrete all-empty profiles (count 5 for the
richer variant). -/
theorem profileText_empty_profile_defaults_witness :
    GeminiService.profileText ⟨"", "", "", "", "", ""⟩ 5 =
        "\n    Analise as seguintes imagens do menu de um restaurante e forneça sugestões de refeições com base neste perfil de usuário:\n    - Gostos e Sabores: "
        ++ "Não especificado"
        ++ "\n    - Alergias: "
        ++ "Nenhuma especificada"
        ++ "\n    - Preferências Gastronômicas (ex: vegano, vegetariano): "
        ++ "Nenhuma preferência específica"
        ++ "\n    - Humor Atual: "
        ++ "Neutro"
        ++ "\n    - Restrições Alimentares: "
        ++ "Nenhuma"
        ++ "\n    - Orçamento: "
        ++ "Flexível"
        ++ "\n\n    **Passo 1: Verificação de Qualidade da Imagem e Tentativa de OCR.**\n    Primeiro, avalie a qualidade da imagem. Tente extrair o texto mesmo que a qualidade não seja perfeita (ex: levemente desfocada, iluminação irregular).\n    - Se o texto principal (nomes dos pratos, preços) for decifrável, defina \x27qualityCheck.isLegible\x27 como verdadeiro.\n    - Se a imagem for genuinamente ilegível, defina \x27qualityCheck.isLegible\x27 como falso e forneça um feedback específico e construtivo no campo \x27qualityCheck.feedback\x27. Exemplos de bom feedback: \x27O texto está muito borrado para ser lido\x27, \x27Há muito reflexo de luz sobre o menu\x27, \x27A imagem está escura demais para distinguir as letras\x27.\n\n    **Passo 2: Análise e Recomendação (somente se o OCR for bem-sucedido).**\n    Se \x27qualityCheck.isLegible\x27 for verdadeiro:\n    1. Com base no texto extraído pelo OCR, analise os pratos, descrições e preços.\n    2. Cruze as informações dos itens do menu com o perfil do usuário.\n    3. "
        ++ "Forneça exatamente "
        ++ toString 5
        ++ " recomendações personalizadas no campo \x27suggestions\x27. Se não encontrar tantas opções boas, pode fornecer menos, mas não mais que "
        ++ toString 5
        ++ "."
        ++ "\n    4. Para cada recomendação, explique *por que* ela é uma boa escolha e identifique sua categoria (ex: \x27Entrada\x27, \x27Prato Principal\x27, \x27Sobremesa\x27, \x27Bebida\x27).\n    \n    **Passo 3: Estimativa Nutricional para uma porção de 100g.**\n    Para cada prato recomendado, você deve fornecer uma estimativa nutricional.\n    1. Identifique os ingredientes principais do prato com base em seu nome e descrição.\n    2. Para cada ingrediente, pesquise os valores nutricionais usando **exclusivamente** as seguintes fontes brasileiras:\n       - Tabela Brasileira de Composição de Alimentos (TBCA): tbca.net.br\n       - Tabela TACO Online: tabelatacoonline.com.br\n       - Nutritotal: nutritotal.com.br\n    3. **Importante:** Se um ingrediente não for encontrado em nenhuma dessas três fontes, ignore-o e continue com os próximos. Não use outras fontes.\n    4. Com base nos ingredientes encontrados, calcule a soma total dos valores nutricionais para uma **porção padrão de 100g** do prato.\n    5. Preencha o objeto \x27nutritionalInfo\x27 com os dados para 100g do prato: Calorias, Carboidratos, Gorduras, Proteína e Sódio.\n    6. O campo \x27nutritionalInfo\x27 é obrigatório. Faça a melhor estimativa possível com os dados disponíveis nas fontes permitidas.\n\n    Se \x27qualityCheck.isLegible\x27 for falso, deixe o campo \x27suggestions\x27 vazio ou nulo.\n  " ∧
    GeminiServiceSimple.profileText ⟨[], [], [], "", [], ""⟩ =
        "\n    Analise as seguintes imagens do menu de um restaurante e forneça sugestões de refeições com base neste perfil de usuário:\n    - Gostos e Sabores: "
        ++ "Não especificado"
        ++ "\n    - Alergias: "
        ++ "Nenhuma especificada"
        ++ "\n    - Preferências Gastronômicas (ex: vegano, vegetariano): "
        ++ "Nenhuma preferência específica"
        ++ "\n    - Humor Atual: "
        ++ "Neutro"
        ++ "\n    - Restrições Alimentares: "
        ++ "Nenhuma"
        ++ "\n    - Orçamento: "
        ++ "Flexível"
        ++ "\n\n    Primeiro, execute o OCR em todas as páginas do menu para entender os pratos, descrições e preços disponíveis.\n    Em seguida, cruze as informações dos itens do menu com o perfil do usuário.\n    "
        ++ "Forneça de 3 a 5 recomendações personalizadas."
        ++ " Para cada recomendação, explique *por que* ela é uma boa escolha.\n  " :=
  ⟨profileText_empty_profile_defaults.1 ⟨"", "", "", "", "", ""⟩ 5 rfl rfl rfl rfl rfl rfl,
   profileText_empty_profile_defaults.2 ⟨[], [], [], "", [], ""⟩ rfl rfl rfl rfl rfl rfl⟩

/-- C9: for every profile and every supplied count `n`, the richer
variant's instruction contains the sentence telling the model to return
exactly `n` recommendations, fewer allowed, never more than `n`; the
simpler variant — the one without a count parameter — always asks for
the fixed range of 3 to 5 recommendations. -/
theorem profileText_suggestionCount_instruction :
    (∀ (p : UserProfile) (n : Nat), ∃ pre post,
      GeminiService.profileText p n =
        pre ++ ("Forneça exatamente " ++ toString n ++ " recomendações personalizadas no campo \x27suggestions\x27. Se não encontrar tantas opções boas, pode fornecer menos, mas não mais que " ++ toString n ++ ".") ++ post) ∧
    (∀ q : UserProfileTags, ∃ pre post,
      GeminiServiceSimple.profileText q =
        pre ++ "Forneça de 3 a 5 recomendações personalizadas." ++ post) := by
  constructor
  · intro p n
    refine ⟨"\n    Analise as seguintes imagens do menu de um restaurante e forneça sugestões de refeições com base neste perfil de usuário:\n    - Gostos e Sabores: "
        ++ jsOrDefault p.tastes "Não especificado"
        ++ "\n    - Alergias: "
        ++ jsOrDefault p.allergies "Nenhuma especificada"
        ++ "\n    - Preferências Gastronômicas (ex: vegano, vegetariano): "
        ++ jsOrDefault p.preferences "Nenhuma preferência específica"
        ++ "\n    - Humor Atual: "
        ++ jsOrDefault p.mood "Neutro"
        ++ "\n    - Restrições Alimentares: "
        ++ jsOrDefault p.diet "Nenhuma"
        ++ "\n    - Orçamento: "
        ++ jsOrDefault p.budget "Flexível"
        ++ "\n\n    **Passo 1: Verificação de Qualidade da Imagem e Tentativa de OCR.**\n    Primeiro, avalie a qualidade da imagem. Tente extrair o texto mesmo que a qualidade não seja perfeita (ex: levemente desfocada, iluminação irregular).\n    - Se o texto principal (nomes dos pratos, preços) for decifrável, defina \x27qualityCheck.isLegible\x27 como verdadeiro.\n    - Se a imagem for genuinamente ilegível, defina \x27qualityCheck.isLegible\x27 como falso e forneça um feedback específico e construtivo no campo \x27qualityCheck.feedback\x27. Exemplos de bom feedback: \x27O texto está muito borrado para ser lido\x27, \x27Há muito reflexo de luz sobre o menu\x27, \x27A imagem está escura demais para distinguir as letras\x27.\n\n    **Passo 2: Análise e Recomendação (somente se o OCR for bem-sucedido).**\n    Se \x27qualityCheck.isLegible\x27 for verdadeiro:\n    1. Com base no texto extraído pelo OCR, analise os pratos, descrições e preços.\n    2. Cruze as informações dos itens do menu com o perfil do usuário.\n    3. ",
      "\n    4. Para cada recomendação, explique *por que* ela é uma boa escolha e identifique sua categoria (ex: \x27Entrada\x27, \x27Prato Principal\x27, \x27Sobremesa\x27, \x27Bebida\x27).\n    \n    **Passo 3: Estimativa Nutricional para uma porção de 100g.**\n    Para cada prato recomendado, você deve fornecer uma estimativa nutricional.\n    1. Identifique os ingredientes principais do prato com base em seu nome e descrição.\n    2. Para cada ingrediente, pesquise os valores nutricionais usando **exclusivamente** as seguintes fontes brasileiras:\n       - Tabela Brasileira de Composição de Alimentos (TBCA): tbca.net.br\n       - Tabela TACO Online: tabelatacoonline.com.br\n       - Nutritotal: nutritotal.com.br\n    3. **Importante:** Se um ingrediente não for encontrado em nenhuma dessas três fontes, ignore-o e continue com os próximos. Não use outras fontes.\n    4. Com base nos ingredientes encontrados, calcule a soma total dos valores nutricionais para uma **porção padrão de 100g** do prato.\n    5. Preencha o objeto \x27nutritionalInfo\x27 com os dados para 100g do prato: Calorias, Carboidratos, Gorduras, Proteína e Sódio.\n    6. O campo \x27nutritionalInfo\x27 é obrigatório. Faça a melhor estimativa possível com os dados disponíveis nas fontes permitidas.\n\n    Se \x27qualityCheck.isLegible\x27 for falso, deixe o campo \x27suggestions\x27 vazio ou nulo.\n  ", ?_⟩
    simp only [GeminiService.profileText, String.append_assoc]
  · intro q
    refine ⟨"\n    Analise as seguintes imagens do menu de um restaurante e forneça sugestões de refeições com base neste perfil de usuário:\n    - Gostos e Sabores: "
        ++ jsOrDefault (String.intercalate ", " q.tastes) "Não especificado"
        ++ "\n    - Alergias: "
        ++ jsOrDefault (String.intercalate ", " q.allergies) "Nenhuma especificada"
        ++ "\n    - Preferências Gastronômicas (ex: vegano, vegetariano): "
        ++ jsOrDefault (String.intercalate ", " q.preferences) "Nenhuma preferência específica"
        ++ "\n    - Humor Atual: "
        ++ jsOrDefault q.mood "Neutro"
        ++ "\n    - Restrições Alimentares: "
        ++ jsOrDefault (String.intercalate ", " q.diet) "Nenhuma"
        ++ "\n    - Orçamento: "
        ++ jsOrDefault q.budget "Flexível"
        ++ "\n\n    Primeiro, execute o OCR em todas as páginas do menu para entender os pratos, descrições e preços disponíveis.\n    Em seguida, cruze as informações dos itens do menu com o perfil do usuário.\n    ",
      " Para cada recomendação, explique *por que* ela é uma boa escolha.\n  ", ?_⟩
    simp only [GeminiServiceSimple.profileText, String.append_assoc]




